import Mathlib

/-!
Shallow embedding of `src/lib/tls/tls_signature_scheme.cpp` (Botan TLS):
the `Signature_Scheme` value type, its scheme registry, descriptor
resolver functions, and the protocol-compatibility and key-suitability
evaluators, together with theorems about them.
-/

namespace BotanTLS

/-- Modelled from the spec: the numeric values of `Signature_Scheme::Code`
are declared in `tls_signature_scheme.h`, which is not under `src/`.  The
spec (section 6) fixes them to the externally defined IANA TLS
SignatureScheme registry, bit-for-bit (e.g. `0x0804` = RSA_PSS_SHA256,
`0x0401` = RSA_PKCS1_SHA256, `0x0403` = ECDSA_SHA256), with `NONE = 0`. -/
def NONE : Nat := 0x0000

def RSA_PKCS1_SHA1 : Nat := 0x0201

def RSA_PKCS1_SHA256 : Nat := 0x0401

def RSA_PKCS1_SHA384 : Nat := 0x0501

def RSA_PKCS1_SHA512 : Nat := 0x0601

def DSA_SHA1 : Nat := 0x0202

def DSA_SHA256 : Nat := 0x0402

def DSA_SHA384 : Nat := 0x0502

def DSA_SHA512 : Nat := 0x0602

def ECDSA_SHA1 : Nat := 0x0203

def ECDSA_SHA256 : Nat := 0x0403

def ECDSA_SHA384 : Nat := 0x0503

def ECDSA_SHA512 : Nat := 0x0603

def RSA_PSS_SHA256 : Nat := 0x0804

def RSA_PSS_SHA384 : Nat := 0x0805

def RSA_PSS_SHA512 : Nat := 0x0806

def EDDSA_25519 : Nat := 0x0807

def EDDSA_448 : Nat := 0x0808

/-- `Signature_Scheme`: a value type wrapping one 16-bit wire code
(`m_code`); identity is the code value alone. -/
structure Signature_Scheme where
  m_code : Nat
deriving DecidableEq, Repr

/-- Modelled from the spec: `Protocol_Version` (declared in
`tls_version.h`, not under `src/`) is a comparable (major, minor) version
with the derived predicate "is pre-TLS-1.3"; TLS 1.2 is version (3, 3)
and TLS 1.3 is version (3, 4). -/
structure Protocol_Version where
  major : Nat
  minor : Nat
deriving DecidableEq, Repr

def Protocol_Version.is_pre_tls_13 (v : Protocol_Version) : Bool :=
  v.major < 3 || (v.major == 3 && v.minor < 4)

def TLS_V12 : Protocol_Version := ⟨3, 3⟩

def TLS_V13 : Protocol_Version := ⟨3, 4⟩

/-- Modelled from the spec: `Private_Key` (external to this core) exposes
an algorithm-family name (`algo_name()`) and a key length in bits
(`key_length()`). -/
structure Private_Key where
  algo_name : String
  key_length : Nat
deriving DecidableEq, Repr

/-- `AlgorithmIdentifier` parameter descriptor: absent/default, explicitly
empty, explicitly null, or a DER-encoded named-curve group (the
`EC_Group(...).DER_encode(NamedCurve)` byte string is abstracted by the
curve name it encodes; elliptic-curve arithmetic is out of scope). -/
inductive AlgIdParams where
  | defaultEmpty : AlgIdParams
  | useEmptyParam : AlgIdParams
  | useNullParam : AlgIdParams
  | namedCurveDER (curve : String) : AlgIdParams
deriving DecidableEq, Repr

/-- `AlgorithmIdentifier`: algorithm name plus encoded parameters. -/
structure AlgorithmIdentifier where
  oid_name : String
  params : AlgIdParams
deriving DecidableEq, Repr

/-- The default-constructed `AlgorithmIdentifier()`. -/
def AlgorithmIdentifier.empty : AlgorithmIdentifier := ⟨"", AlgIdParams.defaultEmpty⟩

/-- `Signature_Format` : IEEE_1363 or DER_SEQUENCE. -/
inductive Signature_Format where
  | IEEE_1363 : Signature_Format
  | DER_SEQUENCE : Signature_Format
deriving DecidableEq, Repr

namespace Signature_Scheme

/-- `Signature_Scheme::Signature_Scheme(uint16_t)`: stores the wire code. -/
def fromWire (wire_code : Nat) : Signature_Scheme := ⟨wire_code⟩

/-- Modelled from the spec: the header's `wire_code()` accessor (declared
in `tls_signature_scheme.h`, not under `src/`) reads back the stored
16-bit code. -/
def wire_code (s : Signature_Scheme) : Nat := s.m_code

/-- `Signature_Scheme::all_available_schemes()`: the preference-ordered
registry. -/
def all_available_schemes : List Signature_Scheme :=
  [ ⟨RSA_PSS_SHA384⟩,
    ⟨RSA_PSS_SHA256⟩,
    ⟨RSA_PSS_SHA512⟩,
    ⟨RSA_PKCS1_SHA384⟩,
    ⟨RSA_PKCS1_SHA512⟩,
    ⟨RSA_PKCS1_SHA256⟩,
    ⟨ECDSA_SHA384⟩,
    ⟨ECDSA_SHA512⟩,
    ⟨ECDSA_SHA256⟩ ]

/-- `Signature_Scheme::is_available()`: membership in the registry. -/
def is_available (s : Signature_Scheme) : Bool :=
  all_available_schemes.contains s

/-- `Signature_Scheme::is_set()`. -/
def is_set (s : Signature_Scheme) : Bool :=
  s.m_code ≠ NONE

/-- `Signature_Scheme::to_string()`. -/
def to_string (s : Signature_Scheme) : String :=
  if s.m_code = RSA_PKCS1_SHA1 then "RSA_PKCS1_SHA1"
  else if s.m_code = RSA_PKCS1_SHA256 then "RSA_PKCS1_SHA256"
  else if s.m_code = RSA_PKCS1_SHA384 then "RSA_PKCS1_SHA384"
  else if s.m_code = RSA_PKCS1_SHA512 then "RSA_PKCS1_SHA512"
  else if s.m_code = ECDSA_SHA1 then "ECDSA_SHA1"
  else if s.m_code = ECDSA_SHA256 then "ECDSA_SHA256"
  else if s.m_code = ECDSA_SHA384 then "ECDSA_SHA384"
  else if s.m_code = ECDSA_SHA512 then "ECDSA_SHA512"
  else if s.m_code = RSA_PSS_SHA256 then "RSA_PSS_SHA256"
  else if s.m_code = RSA_PSS_SHA384 then "RSA_PSS_SHA384"
  else if s.m_code = RSA_PSS_SHA512 then "RSA_PSS_SHA512"
  else if s.m_code = EDDSA_25519 then "EDDSA_25519"
  else if s.m_code = EDDSA_448 then "EDDSA_448"
  else if s.m_code = DSA_SHA1 then "DSA_SHA1"
  else if s.m_code = DSA_SHA256 then "DSA_SHA256"
  else if s.m_code = DSA_SHA384 then "DSA_SHA384"
  else if s.m_code = DSA_SHA512 then "DSA_SHA512"
  else "Unknown signature scheme: " ++ toString s.m_code

/-- `Signature_Scheme::hash_function_name()`. -/
def hash_function_name (s : Signature_Scheme) : String :=
  if s.m_code = RSA_PKCS1_SHA1 ∨ s.m_code = ECDSA_SHA1 ∨ s.m_code = DSA_SHA1 then
    "SHA-1"
  else if s.m_code = ECDSA_SHA256 ∨ s.m_code = RSA_PKCS1_SHA256 ∨
      s.m_code = RSA_PSS_SHA256 ∨ s.m_code = DSA_SHA256 then
    "SHA-256"
  else if s.m_code = ECDSA_SHA384 ∨ s.m_code = RSA_PKCS1_SHA384 ∨
      s.m_code = RSA_PSS_SHA384 ∨ s.m_code = DSA_SHA384 then
    "SHA-384"
  else if s.m_code = ECDSA_SHA512 ∨ s.m_code = RSA_PKCS1_SHA512 ∨
      s.m_code = RSA_PSS_SHA512 ∨ s.m_code = DSA_SHA512 then
    "SHA-512"
  else if s.m_code = EDDSA_25519 ∨ s.m_code = EDDSA_448 then
    "Pure"
  else
    "Unknown hash function"

/-- `Signature_Scheme::padding_string()`. -/
def padding_string (s : Signature_Scheme) : String :=
  if s.m_code = RSA_PKCS1_SHA1 then "EMSA_PKCS1(SHA-1)"
  else if s.m_code = RSA_PKCS1_SHA256 then "EMSA_PKCS1(SHA-256)"
  else if s.m_code = RSA_PKCS1_SHA384 then "EMSA_PKCS1(SHA-384)"
  else if s.m_code = RSA_PKCS1_SHA512 then "EMSA_PKCS1(SHA-512)"
  else if s.m_code = ECDSA_SHA1 then "EMSA1(SHA-1)"
  else if s.m_code = ECDSA_SHA256 then "EMSA1(SHA-256)"
  else if s.m_code = ECDSA_SHA384 then "EMSA1(SHA-384)"
  else if s.m_code = ECDSA_SHA512 then "EMSA1(SHA-512)"
  else if s.m_code = RSA_PSS_SHA256 then "PSSR(SHA-256,MGF1,32)"
  else if s.m_code = RSA_PSS_SHA384 then "PSSR(SHA-384,MGF1,48)"
  else if s.m_code = RSA_PSS_SHA512 then "PSSR(SHA-512,MGF1,64)"
  else if s.m_code = EDDSA_25519 then "Pure"
  else if s.m_code = EDDSA_448 then "Pure"
  else "Unknown padding"

/-- `Signature_Scheme::algorithm_name()`. -/
def algorithm_name (s : Signature_Scheme) : String :=
  if s.m_code = RSA_PKCS1_SHA1 ∨ s.m_code = RSA_PKCS1_SHA256 ∨
      s.m_code = RSA_PKCS1_SHA384 ∨ s.m_code = RSA_PKCS1_SHA512 ∨
      s.m_code = RSA_PSS_SHA256 ∨ s.m_code = RSA_PSS_SHA384 ∨
      s.m_code = RSA_PSS_SHA512 then
    "RSA"
  else if s.m_code = ECDSA_SHA1 ∨ s.m_code = ECDSA_SHA256 ∨
      s.m_code = ECDSA_SHA384 ∨ s.m_code = ECDSA_SHA512 then
    "ECDSA"
  else if s.m_code = EDDSA_25519 then "Ed25519"
  else if s.m_code = EDDSA_448 then "Ed448"
  else if s.m_code = DSA_SHA1 ∨ s.m_code = DSA_SHA256 ∨
      s.m_code = DSA_SHA384 ∨ s.m_code = DSA_SHA512 then
    "DSA"
  else "Unknown algorithm"

/-- `Signature_Scheme::algorithm_identifier()`. -/
def algorithm_identifier (s : Signature_Scheme) : AlgorithmIdentifier :=
  if s.m_code = ECDSA_SHA256 then
    ⟨"ECDSA", AlgIdParams.namedCurveDER "secp256r1"⟩
  else if s.m_code = ECDSA_SHA384 then
    ⟨"ECDSA", AlgIdParams.namedCurveDER "secp384r1"⟩
  else if s.m_code = ECDSA_SHA512 then
    ⟨"ECDSA", AlgIdParams.namedCurveDER "secp521r1"⟩
  else if s.m_code = EDDSA_25519 then
    ⟨"Ed25519", AlgIdParams.useEmptyParam⟩
  else if s.m_code = RSA_PKCS1_SHA1 ∨ s.m_code = RSA_PKCS1_SHA256 ∨
      s.m_code = RSA_PKCS1_SHA384 ∨ s.m_code = RSA_PKCS1_SHA512 ∨
      s.m_code = RSA_PSS_SHA256 ∨ s.m_code = RSA_PSS_SHA384 ∨
      s.m_code = RSA_PSS_SHA512 then
    ⟨"RSA", AlgIdParams.useNullParam⟩
  else
    AlgorithmIdentifier.empty

/-- `Signature_Scheme::format()`. -/
def format (s : Signature_Scheme) : Option Signature_Format :=
  if s.m_code = RSA_PKCS1_SHA1 ∨ s.m_code = RSA_PKCS1_SHA256 ∨
      s.m_code = RSA_PKCS1_SHA384 ∨ s.m_code = RSA_PKCS1_SHA512 ∨
      s.m_code = RSA_PSS_SHA256 ∨ s.m_code = RSA_PSS_SHA384 ∨
      s.m_code = RSA_PSS_SHA512 then
    some Signature_Format.IEEE_1363
  else if s.m_code = ECDSA_SHA1 ∨ s.m_code = ECDSA_SHA256 ∨
      s.m_code = ECDSA_SHA384 ∨ s.m_code = ECDSA_SHA512 ∨
      s.m_code = EDDSA_25519 ∨ s.m_code = EDDSA_448 ∨
      s.m_code = DSA_SHA1 ∨ s.m_code = DSA_SHA256 ∨
      s.m_code = DSA_SHA384 ∨ s.m_code = DSA_SHA512 then
    some Signature_Format.DER_SEQUENCE
  else
    none

/-- `Signature_Scheme::is_compatible_with(protocol_version)`. -/
def is_compatible_with (s : Signature_Scheme) (protocol_version : Protocol_Version) : Bool :=
  if s.hash_function_name = "SHA-1" then false
  else if ¬ protocol_version.is_pre_tls_13 ∧
      (s.m_code = RSA_PKCS1_SHA1 ∨ s.m_code = RSA_PKCS1_SHA256 ∨
       s.m_code = RSA_PKCS1_SHA384 ∨ s.m_code = RSA_PKCS1_SHA512) then
    false
  else true

/-- `Signature_Scheme::is_suitable_for(private_key)`. -/
def is_suitable_for (s : Signature_Scheme) (private_key : Private_Key) : Bool :=
  if s.algorithm_name ≠ private_key.algo_name then false
  else
    let keylen := private_key.key_length
    if keylen ≤ 250 then false
    else if s.m_code = ECDSA_SHA256 ∧ ¬ (keylen ≥ 250 ∧ keylen ≤ 350) then false
    else if s.m_code = ECDSA_SHA384 ∧ ¬ (keylen ≥ 350 ∧ keylen ≤ 450) then false
    else if s.m_code = ECDSA_SHA512 ∧ ¬ (keylen ≥ 450 ∧ keylen ≤ 550) then false
    else true

/-- A code is one of the three RSA-PSS codes. -/
def is_rsa_pss_code (c : Nat) : Prop :=
  c = RSA_PSS_SHA256 ∨ c = RSA_PSS_SHA384 ∨ c = RSA_PSS_SHA512

/-- A code is one of the four RSA-PKCS1 codes. -/
def is_rsa_pkcs1_code (c : Nat) : Prop :=
  c = RSA_PKCS1_SHA1 ∨ c = RSA_PKCS1_SHA256 ∨
  c = RSA_PKCS1_SHA384 ∨ c = RSA_PKCS1_SHA512

/-- A code is one of the four ECDSA codes. -/
def is_ecdsa_code (c : Nat) : Prop :=
  c = ECDSA_SHA1 ∨ c = ECDSA_SHA256 ∨ c = ECDSA_SHA384 ∨ c = ECDSA_SHA512

instance (c : Nat) : Decidable (is_rsa_pss_code c) := by
  unfold is_rsa_pss_code; infer_instance

instance (c : Nat) : Decidable (is_rsa_pkcs1_code c) := by
  unfold is_rsa_pkcs1_code; infer_instance

instance (c : Nat) : Decidable (is_ecdsa_code c) := by
  unfold is_ecdsa_code; infer_instance

/-- The 17 named (recognized) wire codes of the `Code` enumeration,
`NONE` aside. -/
def recognized_codes : List Nat :=
  [ RSA_PKCS1_SHA1, RSA_PKCS1_SHA256, RSA_PKCS1_SHA384, RSA_PKCS1_SHA512,
    DSA_SHA1, DSA_SHA256, DSA_SHA384, DSA_SHA512,
    ECDSA_SHA1, ECDSA_SHA256, ECDSA_SHA384, ECDSA_SHA512,
    RSA_PSS_SHA256, RSA_PSS_SHA384, RSA_PSS_SHA512,
    EDDSA_25519, EDDSA_448 ]

end Signature_Scheme

open Signature_Scheme

/-- C1: for every scheme whose `hash_function_name()` is `"SHA-1"`,
`is_compatible_with(v)` is false for every protocol version `v`. -/
theorem C1_sha1_never_compatible (s : Signature_Scheme) (v : Protocol_Version)
    (h : s.hash_function_name = "SHA-1") :
    s.is_compatible_with v = false := by
  simp [Signature_Scheme.is_compatible_with, h]

/-- C1 witness: `ECDSA_SHA1` hashes with SHA-1 and is incompatible with
TLS 1.2 (a pre-TLS-1.3 version). -/
theorem C1_sha1_never_compatible_witness :
    (Signature_Scheme.mk ECDSA_SHA1).hash_function_name = "SHA-1" ∧
    (Signature_Scheme.mk ECDSA_SHA1).is_compatible_with TLS_V12 = false :=
  ⟨by decide, C1_sha1_never_compatible ⟨ECDSA_SHA1⟩ TLS_V12 (by decide)⟩

/-- C2 counterexample: the claim asserts that every one of the four
RSA-PKCS1 codes is compatible with TLS 1.2, but for `RSA_PKCS1_SHA1` the
unconditional SHA-1 ban fires first and `is_compatible_with(TLS 1.2)` is
false. -/
theorem C2_counterexample :
    (Signature_Scheme.mk RSA_PKCS1_SHA1).is_compatible_with TLS_V12 = false := by
  decide

/-- C2 (amended): the three RSA-PKCS1 codes with SHA-256/384/512 are
compatible with TLS 1.2 and incompatible with TLS 1.3; `RSA_PKCS1_SHA1`
is incompatible with both; every RSA-PSS code is compatible with both. -/
theorem C2_rsa_compatibility :
    ((Signature_Scheme.mk RSA_PKCS1_SHA256).is_compatible_with TLS_V12 = true ∧
     (Signature_Scheme.mk RSA_PKCS1_SHA384).is_compatible_with TLS_V12 = true ∧
     (Signature_Scheme.mk RSA_PKCS1_SHA512).is_compatible_with TLS_V12 = true) ∧
    ((Signature_Scheme.mk RSA_PKCS1_SHA1).is_compatible_with TLS_V13 = false ∧
     (Signature_Scheme.mk RSA_PKCS1_SHA256).is_compatible_with TLS_V13 = false ∧
     (Signature_Scheme.mk RSA_PKCS1_SHA384).is_compatible_with TLS_V13 = false ∧
     (Signature_Scheme.mk RSA_PKCS1_SHA512).is_compatible_with TLS_V13 = false) ∧
    ((Signature_Scheme.mk RSA_PKCS1_SHA1).is_compatible_with TLS_V12 = false) ∧
    (∀ c : Nat, is_rsa_pss_code c →
      (Signature_Scheme.mk c).is_compatible_with TLS_V12 = true ∧
      (Signature_Scheme.mk c).is_compatible_with TLS_V13 = true) := by
  refine ⟨by decide, by decide, by decide, ?_⟩
  intro c hc
  rcases hc with h | h | h <;> subst h <;> exact ⟨by decide, by decide⟩

/-- C2 witness: instantiates the RSA-PSS clause at `RSA_PSS_SHA256`. -/
theorem C2_rsa_compatibility_witness :
    (Signature_Scheme.mk RSA_PSS_SHA256).is_compatible_with TLS_V12 = true ∧
    (Signature_Scheme.mk RSA_PSS_SHA256).is_compatible_with TLS_V13 = true :=
  C2_rsa_compatibility.2.2.2 RSA_PSS_SHA256 (Or.inl rfl)

/-- C3: `algorithm_identifier()` maps the three SHA-2 ECDSA codes to
`("ECDSA", DER of secp256r1/secp384r1/secp521r1)`, Ed25519 to
`("Ed25519", explicitly-empty parameters)`, all seven RSA codes to
`("RSA", explicitly-null parameters)`, and every other code to the
default-constructed empty identifier. -/
theorem C3_algorithm_identifier :
    ((Signature_Scheme.mk ECDSA_SHA256).algorithm_identifier =
      ⟨"ECDSA", AlgIdParams.namedCurveDER "secp256r1"⟩ ∧
     (Signature_Scheme.mk ECDSA_SHA384).algorithm_identifier =
      ⟨"ECDSA", AlgIdParams.namedCurveDER "secp384r1"⟩ ∧
     (Signature_Scheme.mk ECDSA_SHA512).algorithm_identifier =
      ⟨"ECDSA", AlgIdParams.namedCurveDER "secp521r1"⟩) ∧
    ((Signature_Scheme.mk EDDSA_25519).algorithm_identifier =
      ⟨"Ed25519", AlgIdParams.useEmptyParam⟩) ∧
    (∀ c : Nat, is_rsa_pss_code c ∨ is_rsa_pkcs1_code c →
      (Signature_Scheme.mk c).algorithm_identifier =
        ⟨"RSA", AlgIdParams.useNullParam⟩) ∧
    (∀ c : Nat,
      c ∉ [ECDSA_SHA256, ECDSA_SHA384, ECDSA_SHA512, EDDSA_25519,
           RSA_PKCS1_SHA1, RSA_PKCS1_SHA256, RSA_PKCS1_SHA384, RSA_PKCS1_SHA512,
           RSA_PSS_SHA256, RSA_PSS_SHA384, RSA_PSS_SHA512] →
      (Signature_Scheme.mk c).algorithm_identifier = AlgorithmIdentifier.empty) := by
  refine ⟨by decide, by decide, ?_, ?_⟩
  · intro c hc
    rcases hc with (h | h | h) | (h | h | h | h) <;> subst h <;> decide
  · intro c h
    simp only [List.mem_cons, List.not_mem_nil, or_false, not_or] at h
    obtain ⟨h1, h2, h3, h4, h5, h6, h7, h8, h9, h10, h11⟩ := h
    simp [Signature_Scheme.algorithm_identifier, h1, h2, h3, h4, h5, h6, h7, h8, h9, h10, h11]

/-- C3 witness: instantiates the default arm at the unrecognized code
`0x1234` and the RSA clause at `RSA_PSS_SHA384`. -/
theorem C3_algorithm_identifier_witness :
    (Signature_Scheme.mk 0x1234).algorithm_identifier = AlgorithmIdentifier.empty ∧
    (Signature_Scheme.mk RSA_PSS_SHA384).algorithm_identifier =
      ⟨"RSA", AlgIdParams.useNullParam⟩ :=
  ⟨C3_algorithm_identifier.2.2.2 0x1234 (by decide),
   C3_algorithm_identifier.2.2.1 RSA_PSS_SHA384 (Or.inl (Or.inr (Or.inl rfl)))⟩

/-- C7: `format()` is `IEEE_1363` for every RSA-family code (PSS and
PKCS1), `DER_SEQUENCE` for every ECDSA, EdDSA and DSA code, and absent
for every other code. -/
theorem C7_format :
    (∀ c : Nat, is_rsa_pss_code c ∨ is_rsa_pkcs1_code c →
      (Signature_Scheme.mk c).format = some Signature_Format.IEEE_1363) ∧
    (∀ c : Nat,
      c ∈ [ECDSA_SHA1, ECDSA_SHA256, ECDSA_SHA384, ECDSA_SHA512,
           EDDSA_25519, EDDSA_448, DSA_SHA1, DSA_SHA256, DSA_SHA384, DSA_SHA512] →
      (Signature_Scheme.mk c).format = some Signature_Format.DER_SEQUENCE) ∧
    (∀ c : Nat, c ∉ recognized_codes → (Signature_Scheme.mk c).format = none) := by
  refine ⟨?_, ?_, ?_⟩
  · intro c hc
    rcases hc with (h | h | h) | (h | h | h | h) <;> subst h <;> decide
  · intro c hc
    simp only [List.mem_cons, List.not_mem_nil, or_false] at hc
    rcases hc with h | h | h | h | h | h | h | h | h | h <;> subst h <;> decide
  · intro c h
    simp only [recognized_codes, List.mem_cons, List.not_mem_nil, or_false, not_or] at h
    obtain ⟨h1, h2, h3, h4, h5, h6, h7, h8, h9, h10, h11, h12, h13, h14, h15, h16, h17⟩ := h
    simp [Signature_Scheme.format, h1, h2, h3, h4, h5, h6, h7, h8, h9, h10,
      h11, h12, h13, h14, h15, h16, h17]

/-- C7 witness: `RSA_PSS_SHA256` formats as IEEE_1363, `ECDSA_SHA256`
as DER_SEQUENCE, and the unrecognized code `0x4242` has no format. -/
theorem C7_format_witness :
    (Signature_Scheme.mk RSA_PSS_SHA256).format = some Signature_Format.IEEE_1363 ∧
    (Signature_Scheme.mk ECDSA_SHA256).format = some Signature_Format.DER_SEQUENCE ∧
    (Signature_Scheme.mk 0x4242).format = none :=
  ⟨C7_format.1 RSA_PSS_SHA256 (Or.inl (Or.inl rfl)),
   C7_format.2.1 ECDSA_SHA256 (by decide),
   C7_format.2.2 0x4242 (by decide)⟩

/-- C8: every resolver function is total; for a code outside the
recognized enumeration, `to_string()` returns the fallback string
embedding the raw numeric code, `hash_function_name()` returns
"Unknown hash function", `padding_string()` returns "Unknown padding",
and `algorithm_name()` returns "Unknown algorithm", each as an ordinary
return value. -/
theorem C8_unknown_code_fallbacks (c : Nat) (h : c ∉ recognized_codes) :
    (Signature_Scheme.mk c).to_string = "Unknown signature scheme: " ++ toString c ∧
    (Signature_Scheme.mk c).hash_function_name = "Unknown hash function" ∧
    (Signature_Scheme.mk c).padding_string = "Unknown padding" ∧
    (Signature_Scheme.mk c).algorithm_name = "Unknown algorithm" := by
  simp only [recognized_codes, List.mem_cons, List.not_mem_nil, or_false, not_or] at h
  obtain ⟨h1, h2, h3, h4, h5, h6, h7, h8, h9, h10, h11, h12, h13, h14, h15, h16, h17⟩ := h
  refine ⟨?_, ?_, ?_, ?_⟩ <;>
    simp [Signature_Scheme.to_string, Signature_Scheme.hash_function_name,
      Signature_Scheme.padding_string, Signature_Scheme.algorithm_name,
      h1, h2, h3, h4, h5, h6, h7, h8, h9, h10, h11, h12, h13, h14, h15, h16, h17]

/-- C8 witness: the fallbacks at the unrecognized code `0x7a7a`. -/
theorem C8_unknown_code_fallbacks_witness :
    (Signature_Scheme.mk 0x7a7a).to_string = "Unknown signature scheme: " ++ toString 0x7a7a ∧
    (Signature_Scheme.mk 0x7a7a).hash_function_name = "Unknown hash function" ∧
    (Signature_Scheme.mk 0x7a7a).padding_string = "Unknown padding" ∧
    (Signature_Scheme.mk 0x7a7a).algorithm_name = "Unknown algorithm" :=
  C8_unknown_code_fallbacks 0x7a7a (by decide)

/-- Helper: the ECDSA_SHA256 suitability band over an "ECDSA"-family key. -/
theorem suitable_band_ecdsa256 (len : Nat) :
    (Signature_Scheme.mk ECDSA_SHA256).is_suitable_for ⟨"ECDSA", len⟩ = true ↔
      250 < len ∧ 250 ≤ len ∧ len ≤ 350 := by
  have halg : (Signature_Scheme.mk ECDSA_SHA256).algorithm_name = "ECDSA" := by decide
  simp only [Signature_Scheme.is_suitable_for, halg]
  simp only [ne_eq, ECDSA_SHA256, ECDSA_SHA384, ECDSA_SHA512]
  split_ifs <;> simp_all

/-- Helper: the ECDSA_SHA384 suitability band over an "ECDSA"-family key. -/
theorem suitable_band_ecdsa384 (len : Nat) :
    (Signature_Scheme.mk ECDSA_SHA384).is_suitable_for ⟨"ECDSA", len⟩ = true ↔
      250 < len ∧ 350 ≤ len ∧ len ≤ 450 := by
  have halg : (Signature_Scheme.mk ECDSA_SHA384).algorithm_name = "ECDSA" := by decide
  simp only [Signature_Scheme.is_suitable_for, halg]
  simp only [ne_eq, ECDSA_SHA256, ECDSA_SHA384, ECDSA_SHA512]
  split_ifs <;> simp_all

/-- Helper: the ECDSA_SHA512 suitability band over an "ECDSA"-family key. -/
theorem suitable_band_ecdsa512 (len : Nat) :
    (Signature_Scheme.mk ECDSA_SHA512).is_suitable_for ⟨"ECDSA", len⟩ = true ↔
      250 < len ∧ 450 ≤ len ∧ len ≤ 550 := by
  have halg : (Signature_Scheme.mk ECDSA_SHA512).algorithm_name = "ECDSA" := by decide
  simp only [Signature_Scheme.is_suitable_for, halg]
  simp only [ne_eq, ECDSA_SHA256, ECDSA_SHA384, ECDSA_SHA512]
  split_ifs <;> simp_all

/-- C4: for an ECDSA_SHA256 scheme with an "ECDSA"-family key,
`is_suitable_for` is false at 250 bits, true at 251 and 350, false at
351; and in general each ECDSA code accepts exactly its hash-aligned
band ([250,350] / [350,450] / [450,550]) intersected with the >250
floor. -/
theorem C4_ecdsa_key_bands :
    ((Signature_Scheme.mk ECDSA_SHA256).is_suitable_for ⟨"ECDSA", 250⟩ = false ∧
     (Signature_Scheme.mk ECDSA_SHA256).is_suitable_for ⟨"ECDSA", 251⟩ = true ∧
     (Signature_Scheme.mk ECDSA_SHA256).is_suitable_for ⟨"ECDSA", 350⟩ = true ∧
     (Signature_Scheme.mk ECDSA_SHA256).is_suitable_for ⟨"ECDSA", 351⟩ = false) ∧
    (∀ k : Private_Key, k.algo_name = "ECDSA" →
      ((Signature_Scheme.mk ECDSA_SHA256).is_suitable_for k = true ↔
        250 < k.key_length ∧ 250 ≤ k.key_length ∧ k.key_length ≤ 350) ∧
      ((Signature_Scheme.mk ECDSA_SHA384).is_suitable_for k = true ↔
        250 < k.key_length ∧ 350 ≤ k.key_length ∧ k.key_length ≤ 450) ∧
      ((Signature_Scheme.mk ECDSA_SHA512).is_suitable_for k = true ↔
        250 < k.key_length ∧ 450 ≤ k.key_length ∧ k.key_length ≤ 550)) := by
  refine ⟨by decide, ?_⟩
  intro k hk
  obtain ⟨name, len⟩ := k
  simp only [Private_Key.algo_name] at hk
  subst hk
  exact ⟨suitable_band_ecdsa256 len, suitable_band_ecdsa384 len, suitable_band_ecdsa512 len⟩

/-- C4 witness: instantiates the band clause at a 384-bit "ECDSA" key. -/
theorem C4_ecdsa_key_bands_witness :
    (Signature_Scheme.mk ECDSA_SHA384).is_suitable_for ⟨"ECDSA", 384⟩ = true :=
  ((C4_ecdsa_key_bands.2 ⟨"ECDSA", 384⟩ rfl).2.1).mpr (by decide)

/-- C5: for every scheme and every private key whose length is at most
250 bits, `is_suitable_for` is false, even when the key's algorithm
family matches. -/
theorem C5_key_length_floor (s : Signature_Scheme) (k : Private_Key)
    (h : k.key_length ≤ 250) :
    s.is_suitable_for k = false := by
  simp only [Signature_Scheme.is_suitable_for]
  split_ifs <;> first | rfl | omega

/-- C5 witness: a 250-bit "ECDSA" key is unsuitable for ECDSA_SHA256
even though the family matches. -/
theorem C5_key_length_floor_witness :
    (Signature_Scheme.mk ECDSA_SHA256).is_suitable_for ⟨"ECDSA", 250⟩ = false :=
  C5_key_length_floor ⟨ECDSA_SHA256⟩ ⟨"ECDSA", 250⟩ (by decide)

/-- C6: the registry lists all RSA-PSS codes before all RSA-PKCS1 codes
before all ECDSA codes, contains no SHA-1 scheme and neither Ed25519 nor
Ed448, and every member is available and has a proper (non-fallback)
name. -/
theorem C6_registry :
    (∀ i j : Fin all_available_schemes.length,
        is_rsa_pss_code (all_available_schemes.get i).m_code →
        is_rsa_pkcs1_code (all_available_schemes.get j).m_code → i < j) ∧
    (∀ i j : Fin all_available_schemes.length,
        is_rsa_pkcs1_code (all_available_schemes.get i).m_code →
        is_ecdsa_code (all_available_schemes.get j).m_code → i < j) ∧
    (∀ i j : Fin all_available_schemes.length,
        is_rsa_pss_code (all_available_schemes.get i).m_code →
        is_ecdsa_code (all_available_schemes.get j).m_code → i < j) ∧
    (∀ s ∈ all_available_schemes, s.hash_function_name ≠ "SHA-1") ∧
    Signature_Scheme.mk EDDSA_25519 ∉ all_available_schemes ∧
    Signature_Scheme.mk EDDSA_448 ∉ all_available_schemes ∧
    (∀ s ∈ all_available_schemes, s.is_available = true ∧
      s.to_string ≠ "Unknown signature scheme: " ++ toString s.m_code) := by
  decide

/-- C6 witness: instantiates the availability clause at the registry's
head, `RSA_PSS_SHA384`. -/
theorem C6_registry_witness :
    (Signature_Scheme.mk RSA_PSS_SHA384).is_available = true ∧
    (Signature_Scheme.mk RSA_PSS_SHA384).to_string ≠
      "Unknown signature scheme: " ++
        toString (Signature_Scheme.mk RSA_PSS_SHA384).m_code :=
  C6_registry.2.2.2.2.2.2 ⟨RSA_PSS_SHA384⟩ (by decide)

/-- C9: constructing a scheme from any 16-bit wire code and reading the
code back yields the same integer, and the construction is
order-preserving. -/
theorem C9_wire_code_roundtrip (c1 c2 : Nat) (h1 : c1 < 2 ^ 16) (h2 : c2 < 2 ^ 16) :
    (Signature_Scheme.fromWire c1).wire_code = c1 ∧
    (c1 ≤ c2 →
      (Signature_Scheme.fromWire c1).wire_code ≤ (Signature_Scheme.fromWire c2).wire_code) :=
  ⟨rfl, fun h => h⟩

/-- C9 witness: round-trip at the codes 0 (NONE) and 0x0804. -/
theorem C9_wire_code_roundtrip_witness :
    (Signature_Scheme.fromWire 0).wire_code = 0 ∧
    (Signature_Scheme.fromWire 0x0804).wire_code = 0x0804 :=
  ⟨(C9_wire_code_roundtrip 0 0 (by decide) (by decide)).1,
   (C9_wire_code_roundtrip 0x0804 0x0804 (by decide) (by decide)).1⟩

/-- C10: compatibility is monotone in protocol age (compatible with a
non-pre-1.3 version implies compatible with every pre-1.3 version), and
depends on the version only through its pre-TLS-1.3 predicate. -/
theorem C10_compat_monotone (s : Signature_Scheme) :
    (∀ vold vnew : Protocol_Version, vold.is_pre_tls_13 = true →
      vnew.is_pre_tls_13 = false → s.is_compatible_with vnew = true →
      s.is_compatible_with vold = true) ∧
    (∀ v1 v2 : Protocol_Version, v1.is_pre_tls_13 = v2.is_pre_tls_13 →
      s.is_compatible_with v1 = s.is_compatible_with v2) := by
  constructor
  · intro vold vnew h1 h2 hc
    by_cases hh : s.hash_function_name = "SHA-1"
    · simp [Signature_Scheme.is_compatible_with, hh] at hc
    · simp [Signature_Scheme.is_compatible_with, hh, h1]
  · intro v1 v2 h
    simp only [Signature_Scheme.is_compatible_with, h]

/-- C10 witness: RSA_PSS_SHA256 is compatible with TLS 1.3, hence with
TLS 1.2; and TLS 1.2 agrees with itself. -/
theorem C10_compat_monotone_witness :
    (Signature_Scheme.mk RSA_PSS_SHA256).is_compatible_with TLS_V12 = true :=
  (C10_compat_monotone ⟨RSA_PSS_SHA256⟩).1 TLS_V12 TLS_V13 (by decide) (by decide) (by decide)

end BotanTLS
